import Mathlib

/-!
Shallow embedding of the `downloader` package (`downloader.go`) of the
youtube download tool, together with the `download` command that drives it.

Pure parts (format selection, output-path resolution, argument assembly for
the external muxer) are translated directly as Lean functions.  Effectful
parts (filesystem calls, the stream fetcher, the external muxer subprocess)
are modelled by threading an explicit environment that supplies the outcome
of each external call, and by recording the externally visible events
(file creation, temp-file removal, muxer invocations) in traces that the
theorems inspect.

Library code of this repository that lives outside the embedded file
(`FormatList.Type`, `FormatList.AudioChannels`, `FormatList.Quality`,
`FormatList.Sort`, `FormatList.FindByItag`, `SanitizeFilename`,
`pickIdealFileExtension`) is modelled from the spec; each such definition
carries a doc comment starting `Modelled from the spec:`.
-/

deriving instance DecidableEq for Except

namespace Downloading

/-- Substring-at-the-start check on the underlying character lists; used for
MIME-class matching because it evaluates by `decide` on concrete strings. -/
def strStartsWith (p s : String) : Bool := p.data.isPrefixOf s.data

/-- Format record of the consumed catalog contract:
`Format{itag, mimeType, qualityLabel, quality, audioChannels, bitrate}`. -/
structure Format where
  itagNo : Nat
  mimeType : String
  qualityLabel : String
  quality : String
  audioChannels : Nat
  bitrate : Nat
  deriving Repr, DecidableEq

/-- Video record of the consumed catalog contract: id, title and the format
catalog `v.Formats`. -/
structure Video where
  id : String
  title : String
  formats : List Format
  deriving Repr, DecidableEq

/-- Modelled from the spec: `FormatList.Type` (repository library code outside
the embedded file) narrows the catalog to a MIME class; a format matches when
the requested class (or full MIME type) stands at the start of its MIME type.
Filtering returns a new list and never mutates the catalog. -/
def typeFilter (t : String) (l : List Format) : List Format :=
  l.filter (fun f => strStartsWith t f.mimeType)

/-- Modelled from the spec: `FormatList.AudioChannels` (repository library code
outside the embedded file) keeps the formats whose audio-channel count equals
the given number. -/
def audioChannelsFilter (n : Nat) (l : List Format) : List Format :=
  l.filter (fun f => f.audioChannels == n)

/-- Modelled from the spec: `FormatList.Quality` (repository library code
outside the embedded file) keeps the formats whose quality string or quality
label exactly matches the requested quality. -/
def qualityFilter (q : String) (l : List Format) : List Format :=
  l.filter (fun f => f.quality == q || f.qualityLabel == q)

/-- Insertion step of the sort modelled below: place `f` before the first
element whose bitrate does not exceed it. -/
def insertFormat (f : Format) : List Format → List Format
  | [] => [f]
  | g :: gs => if g.bitrate ≤ f.bitrate then f :: g :: gs else g :: insertFormat f gs

/-- Modelled from the spec: `FormatList.Sort` (repository library code outside
the embedded file) orders a candidate list by a deterministic total order
favoring higher bitrate, so that the best candidate comes first. -/
def sortFormats : List Format → List Format
  | [] => []
  | f :: fs => insertFormat f (sortFormats fs)

/-- Modelled from the spec: `FormatList.FindByItag` (repository library code
outside the embedded file) returns the first format whose itag equals the
requested id, or nothing when no format has that id (exact match). -/
def findByItag (l : List Format) (itag : Nat) : Option Format :=
  l.find? (fun f => f.itagNo == itag)

/-- Catalog after the optional MIME-type narrowing of `getVideoAudioFormats`
(downloader.go:164-167). -/
def baseFormats (v : Video) (mimetype : String) : List Format :=
  if mimetype ≠ "" then typeFilter mimetype v.formats else v.formats

/-- Video candidate set of `getVideoAudioFormats` (downloader.go:169-174):
the narrowed catalog filtered to the `"video"` class and audio-channel count
0, then filtered by `quality` when given. -/
def videoCandidates (v : Video) (quality mimetype : String) : List Format :=
  if quality ≠ "" then
    qualityFilter quality (audioChannelsFilter 0 (typeFilter "video" (baseFormats v mimetype)))
  else audioChannelsFilter 0 (typeFilter "video" (baseFormats v mimetype))

/-- Audio candidate set of `getVideoAudioFormats` (downloader.go:170): the
narrowed catalog filtered to the `"audio"` class.  The quality filter does
not apply to audio. -/
def audioCandidates (v : Video) (mimetype : String) : List Format :=
  typeFilter "audio" (baseFormats v mimetype)

/-- Embedding of `getVideoAudioFormats` (downloader.go:160-195): build both
candidate sets, sort each and take its head; report the video-not-found error
first (the `videoFormat == nil` check at line 186 precedes the audio check at
line 190), then the audio-not-found error. -/
def getVideoAudioFormats (v : Video) (quality mimetype : String) :
    Except String (Format × Format) :=
  match sortFormats (videoCandidates v quality mimetype),
        sortFormats (audioCandidates v mimetype) with
  | [], _ => Except.error "no video format found after filtering"
  | _ :: _, [] => Except.error "no audio format found after filtering"
  | vf :: _, af :: _ => Except.ok (vf, af)

/-- Embedding of `getFormatByItag` (downloader.go:197-206): look the itag up
in the catalog; when absent, fail with the fixed message
`"no audio format found"` (the literal string of line 202). -/
def getFormatByItag (v : Video) (itag : Nat) : Except String Format :=
  match findByItag v.formats itag with
  | none => Except.error "no audio format found"
  | some r => Except.ok r

/-- Modelled from the spec: `pickIdealFileExtension` (repository library code
outside the embedded file) infers a file extension from the chosen format's
MIME type via a fixed subtype-to-extension table. -/
def extensionTable : List (String × String) :=
  [("video/mp4", ".mp4"), ("video/webm", ".webm"),
   ("audio/mp4", ".m4a"), ("audio/webm", ".weba")]

/-- Modelled from the spec: the documented fallback extension used when the
MIME subtype is not in the fixed table. -/
def defaultExtension : String := ".mov"

/-- Modelled from the spec: `pickIdealFileExtension` looks the MIME type up in
the fixed table and falls back to the documented default extension when the
subtype is unknown. -/
def pickIdealFileExtension (mimeType : String) : String :=
  match extensionTable.find? (fun p => strStartsWith p.1 mimeType) with
  | some p => p.2
  | none => defaultExtension

/-- Externally visible events of one task: directory creation with its
permission bits, destination-file creation (truncating), the attempt to open
the remote stream, a write of downloaded bytes, and file removal. -/
inductive Eff where
  | mkdirAll (dir : String) (perm : Nat)
  | create (path : String)
  | streamOpen
  | write (path : String) (bytes : List Nat)
  | remove (path : String)
  deriving Repr, DecidableEq

/-- Downloader record (downloader.go:17-20): the client plus the optional
output directory. -/
structure Downloader where
  outputDir : String
  deriving Repr, DecidableEq

/-- Embedding of `getOutputFile` (downloader.go:22-36).  `sanitize` stands for
`SanitizeFilename` (repository library code outside the embedded file, whose
rules the spec leaves out of scope), `mkdirAllRes` for the outcome of
`os.MkdirAll(dl.OutputDir, 0o755)`.  Returns the resolved path (or the mkdir
error) together with the filesystem events performed; `filepath.Join` is
modelled as joining with a path separator. -/
def getOutputFile (dl : Downloader) (sanitize : String → String)
    (mkdirAllRes : Except String Unit) (v : Video) (format : Format)
    (outputFile : String) : Except String String × List Eff :=
  let name :=
    if outputFile = "" then sanitize v.title ++ pickIdealFileExtension format.mimeType
    else outputFile
  if dl.outputDir = "" then (Except.ok name, [])
  else
    match mkdirAllRes with
    | Except.error e => (Except.error e, [Eff.mkdirAll dl.outputDir 0o755])
    | Except.ok _ =>
        (Except.ok (dl.outputDir ++ "/" ++ name), [Eff.mkdirAll dl.outputDir 0o755])

/-- Remote stream as delivered to the copy loop: the chunks successive reads
return, then either a clean end of stream or a read error, plus the declared
content length reported by `GetStreamContext`. -/
structure Stream where
  chunks : List (List Nat)
  tailErr : Option String
  size : Nat
  deriving Repr, DecidableEq

/-- State of one copy through `io.MultiWriter(out, prog)`
(downloader.go:235-236): the bytes written to the destination file and the
monotonic byte counter of the progress tracker. -/
structure CopyState where
  written : List Nat
  counter : Nat
  deriving Repr, DecidableEq

/-- One chunk through the multi-writer: the chunk is appended unchanged to the
destination and the progress counter advances by its length. -/
def writeChunk (s : CopyState) (chunk : List Nat) : CopyState :=
  { written := s.written ++ chunk, counter := s.counter + chunk.length }

/-- Embedding of the `io.Copy` loop (downloader.go:236): every chunk read from
the source goes through the multi-writer in order. -/
def ioCopy (chunks : List (List Nat)) (s : CopyState) : CopyState :=
  chunks.foldl writeChunk s

/-- Decorators attached to the progress bar (downloader.go:223-231). -/
inductive Decor where
  | countersKibiByte
  | percentage
  | ewmaETA
  | nameDecor
  | ewmaSpeed
  deriving Repr, DecidableEq

/-- Progress-bar configuration built by `videoDLWorker`: the declared total
and the prepended/appended decorator lists. -/
structure BarConfig where
  total : Nat
  prepended : List Decor
  appended : List Decor
  deriving Repr, DecidableEq

/-- Embedding of the bar construction in `videoDLWorker`
(downloader.go:214-232): the total is the declared stream size and the same
decorators are attached whatever the size is. -/
def videoDLWorkerBar (size : Nat) : BarConfig :=
  { total := size
    prepended := [Decor.countersKibiByte, Decor.percentage]
    appended := [Decor.ewmaETA, Decor.nameDecor, Decor.ewmaSpeed] }

/-- Observable outcome of one `videoDLWorker` run: the returned error if any,
the bytes delivered to the destination file, the final progress counter, and
the bar configuration (present once the stream was opened). -/
structure WorkerOut where
  result : Except String Unit
  written : List Nat
  counter : Nat
  bar : Option BarConfig

/-- Embedding of `videoDLWorker` (downloader.go:208-243): open the stream
(`streamRes` is the outcome of `GetStreamContext`), build the progress bar
from the declared size, copy every chunk through the multi-writer, and return
the read error when the stream ends abnormally. -/
def videoDLWorker (streamRes : Except String Stream) : WorkerOut :=
  match streamRes with
  | Except.error e => ⟨Except.error e, [], 0, none⟩
  | Except.ok s =>
    let st := ioCopy s.chunks ⟨[], 0⟩
    match s.tailErr with
    | some e => ⟨Except.error e, st.written, st.counter, some (videoDLWorkerBar s.size)⟩
    | none => ⟨Except.ok (), st.written, st.counter, some (videoDLWorkerBar s.size)⟩

/-- Environment of a single-stream download: the sanitizer, and the outcomes
of `os.MkdirAll`, `os.Create` and `GetStreamContext`. -/
structure DLEnv where
  sanitize : String → String
  mkdirAllRes : Except String Unit
  createRes : Except String Unit
  streamRes : Except String Stream

/-- Embedding of `Download` (downloader.go:39-59): resolve the output path,
create (truncating) the destination file, then run `videoDLWorker`; the
destination is never removed on error.  Returns the result together with the
filesystem events in order. -/
def Downloader.download (dl : Downloader) (env : DLEnv) (v : Video)
    (format : Format) (outputFile : String) : Except String Unit × List Eff :=
  match getOutputFile dl env.sanitize env.mkdirAllRes v format outputFile with
  | (Except.error e, effs) => (Except.error e, effs)
  | (Except.ok destFile, effs) =>
    match env.createRes with
    | Except.error e => (Except.error e, effs)
    | Except.ok _ =>
      let w := videoDLWorker env.streamRes
      match env.streamRes with
      | Except.error e => (Except.error e, effs ++ [Eff.create destFile, Eff.streamOpen])
      | Except.ok _ =>
          (w.result,
           effs ++ [Eff.create destFile, Eff.streamOpen, Eff.write destFile w.written])

/-- Embedding of `DownloadByItag` (downloader.go:126-158): resolve the format
by itag, then proceed exactly as `Download` does — resolve the path, create
the destination, run the worker; the destination is never removed on error. -/
def Downloader.downloadByItag (dl : Downloader) (env : DLEnv) (v : Video)
    (itag : Nat) (outputFile : String) : Except String Unit × List Eff :=
  match getFormatByItag v itag with
  | Except.error e => (Except.error e, [])
  | Except.ok format =>
    match getOutputFile dl env.sanitize env.mkdirAllRes v format outputFile with
    | (Except.error e, effs) => (Except.error e, effs)
    | (Except.ok destFile, effs) =>
      match env.createRes with
      | Except.error e => (Except.error e, effs)
      | Except.ok _ =>
        let w := videoDLWorker env.streamRes
        match env.streamRes with
        | Except.error e => (Except.error e, effs ++ [Eff.create destFile, Eff.streamOpen])
        | Except.ok _ =>
            (w.result,
             effs ++ [Eff.create destFile, Eff.streamOpen, Eff.write destFile w.written])

/-- Outcome of running an external command (`exec.Cmd.Run`): success, a
nonzero exit of the launched process (Go's `*exec.ExitError`), or a launch
failure because the executable is absent from the search path (Go's
`*exec.Error` wrapping `exec.ErrNotFound`). -/
inductive RunResult where
  | ok
  | exitErr (code : Nat)
  | notFound
  deriving Repr, DecidableEq

/-- Errors surfaced by the composite path.  `msg` carries a `fmt.Errorf`
message; `exitError` is the distinct nonzero-exit error of the muxer
subprocess (the spec's `MergeError`); `execNotFound` is the distinct
tool-absent launch error (the spec's `ToolMissing`). -/
inductive DLErr where
  | msg (s : String)
  | exitError (code : Nat)
  | execNotFound
  deriving Repr, DecidableEq

/-- Network and subprocess events of the composite path, in order: the
`ffmpeg -version` availability probe, the two stream downloads, and the muxer
invocation. -/
inductive Ev where
  | probeFFmpeg
  | netVideoDownload
  | netAudioDownload
  | muxerInvoke
  deriving Repr, DecidableEq

/-- Environment of a composite download: the sanitizer, the outcomes of
`os.MkdirAll`, of the two `os.CreateTemp` calls (temp path on success), of
the two stream fetches, of the muxer run, and of the `ffmpeg -version`
probe run by the command layer. -/
structure CompositeEnv where
  sanitize : String → String
  mkdirAllRes : Except String Unit
  createVideoTemp : Except String String
  createAudioTemp : Except String String
  streamVideo : Except String Stream
  streamAudio : Except String Stream
  muxerRun : RunResult
  ffmpegProbe : RunResult

/-- Observable trace of one `DownloadComposite` run: the returned result, the
temp paths created, the temp paths removed by the deferred `os.Remove` calls
at function exit (in their LIFO firing order), every muxer invocation with its
argument list, and the network/subprocess events in order. -/
structure CompositeTrace where
  result : Except DLErr Unit
  created : List String
  removed : List String
  muxerCalls : List (List String)
  events : List Ev
  deriving Repr, DecidableEq

/-- Argument list of the muxer invocation (downloader.go:110-117), in the
order the source writes it: force overwrite, the input temp video path, the
input temp audio path, stream copy without re-encoding, truncate to the
shortest input stream, the destination path, reduced log verbosity. -/
def ffmpegArgs (videoTemp audioTemp destFile : String) : List String :=
  ["-y", "-i", videoTemp, "-i", audioTemp, "-c", "copy", "-shortest",
   destFile, "-loglevel", "warning"]

/-- Embedding of `DownloadComposite` (downloader.go:62-123): select the two
formats, resolve the destination, create the two temp files (each registering
a deferred `os.Remove` that fires on every later exit path), download video
then audio via `videoDLWorker`, and finally run the muxer once, mapping its
outcome to the result — nonzero exit and tool-absent launch failure stay
distinct errors. -/
def Downloader.downloadComposite (dl : Downloader) (env : CompositeEnv)
    (outputFile : String) (v : Video) (quality mimetype : String) :
    CompositeTrace :=
  match getVideoAudioFormats v quality mimetype with
  | Except.error e => ⟨Except.error (DLErr.msg e), [], [], [], []⟩
  | Except.ok (videoFormat, _audioFormat) =>
    match (getOutputFile dl env.sanitize env.mkdirAllRes v videoFormat outputFile).1 with
    | Except.error e => ⟨Except.error (DLErr.msg e), [], [], [], []⟩
    | Except.ok destFile =>
      match env.createVideoTemp with
      | Except.error e => ⟨Except.error (DLErr.msg e), [], [], [], []⟩
      | Except.ok videoTemp =>
        match env.createAudioTemp with
        | Except.error e =>
            ⟨Except.error (DLErr.msg e), [videoTemp], [videoTemp], [], []⟩
        | Except.ok audioTemp =>
          match (videoDLWorker env.streamVideo).result with
          | Except.error e =>
              ⟨Except.error (DLErr.msg e), [videoTemp, audioTemp],
               [audioTemp, videoTemp], [], [Ev.netVideoDownload]⟩
          | Except.ok _ =>
            match (videoDLWorker env.streamAudio).result with
            | Except.error e =>
                ⟨Except.error (DLErr.msg e), [videoTemp, audioTemp],
                 [audioTemp, videoTemp], [],
                 [Ev.netVideoDownload, Ev.netAudioDownload]⟩
            | Except.ok _ =>
              let res :=
                match env.muxerRun with
                | RunResult.ok => Except.ok ()
                | RunResult.exitErr c => Except.error (DLErr.exitError c)
                | RunResult.notFound => Except.error DLErr.execNotFound
              ⟨res, [videoTemp, audioTemp], [audioTemp, videoTemp],
               [ffmpegArgs videoTemp audioTemp destFile],
               [Ev.netVideoDownload, Ev.netAudioDownload, Ev.muxerInvoke]⟩

/-- Embedding of `checkFFMPEG` (download command, downloader.go:311-318): run
`ffmpeg -version`; any failure yields the fixed installation-check error. -/
def checkFFMPEG (probe : RunResult) : Except DLErr Unit :=
  match probe with
  | RunResult.ok => Except.ok ()
  | _ => Except.error (DLErr.msg "please check ffmpegCheck is installed correctly")

/-- Embedding of the composite (`hd` quality) branch of the `download` command
(downloader.go:301-306): probe the muxer with `checkFFMPEG` first and only on
success run `DownloadComposite`; the returned event list records the probe
followed by the composite run's network and subprocess events. -/
def downloadHD (dl : Downloader) (env : CompositeEnv) (outputFile : String)
    (v : Video) (quality mimetype : String) : Except DLErr Unit × List Ev :=
  match checkFFMPEG env.ffmpegProbe with
  | Except.error e => (Except.error e, [Ev.probeFFmpeg])
  | Except.ok _ =>
    let t := dl.downloadComposite env outputFile v quality mimetype
    (t.result, Ev.probeFFmpeg :: t.events)

/-- Filesystem contents as a list of path-content pairs; one event applied. -/
def applyEff (fs : List (String × List Nat)) : Eff → List (String × List Nat)
  | Eff.mkdirAll _ _ => fs
  | Eff.create p => (p, []) :: fs.filter (fun e => e.1 ≠ p)
  | Eff.streamOpen => fs
  | Eff.write p bs =>
      match fs.lookup p with
      | some old => (p, old ++ bs) :: fs.filter (fun e => e.1 ≠ p)
      | none => fs
  | Eff.remove p => fs.filter (fun e => e.1 ≠ p)

/-- Filesystem contents after a trace of events. -/
def runFs (fs : List (String × List Nat)) (effs : List Eff) :
    List (String × List Nat) :=
  effs.foldl applyEff fs

section SelectionLemmas

theorem mem_insertFormat (a f : Format) (l : List Format) :
    a ∈ insertFormat f l ↔ a = f ∨ a ∈ l := by
  induction l with
  | nil => simp [insertFormat]
  | cons g gs ih =>
    simp only [insertFormat]
    split
    · simp [List.mem_cons]
    · simp only [List.mem_cons, ih]
      tauto

theorem mem_sortFormats (a : Format) (l : List Format) :
    a ∈ sortFormats l ↔ a ∈ l := by
  induction l with
  | nil => simp [sortFormats]
  | cons f fs ih => simp [sortFormats, mem_insertFormat, ih]

theorem insertFormat_ne_nil (f : Format) (l : List Format) :
    insertFormat f l ≠ [] := by
  cases l with
  | nil => simp [insertFormat]
  | cons g gs =>
    simp only [insertFormat]
    split <;> simp

theorem sortFormats_eq_nil_iff (l : List Format) :
    sortFormats l = [] ↔ l = [] := by
  cases l with
  | nil => simp [sortFormats]
  | cons f fs => simp [sortFormats, insertFormat_ne_nil]

theorem mem_baseFormats {f : Format} {v : Video} {mimetype : String}
    (h : f ∈ baseFormats v mimetype) : f ∈ v.formats := by
  unfold baseFormats at h
  split at h
  · simp only [typeFilter, List.mem_filter] at h
    exact h.1
  · exact h

theorem mem_videoCandidates {f : Format} {v : Video} {quality mimetype : String}
    (h : f ∈ videoCandidates v quality mimetype) :
    f ∈ v.formats ∧ strStartsWith "video" f.mimeType = true ∧ f.audioChannels = 0 := by
  unfold videoCandidates at h
  have h2 : f ∈ audioChannelsFilter 0 (typeFilter "video" (baseFormats v mimetype)) := by
    split at h
    · simp only [qualityFilter, List.mem_filter] at h
      exact h.1
    · exact h
  simp only [audioChannelsFilter, typeFilter, List.mem_filter, beq_iff_eq] at h2
  exact ⟨mem_baseFormats h2.1.1, h2.1.2, h2.2⟩

theorem mem_audioCandidates {f : Format} {v : Video} {mimetype : String}
    (h : f ∈ audioCandidates v mimetype) :
    f ∈ v.formats ∧ strStartsWith "audio" f.mimeType = true := by
  simp only [audioCandidates, typeFilter, List.mem_filter] at h
  exact ⟨mem_baseFormats h.1, h.2⟩

end SelectionLemmas

/-- Sample catalog for concrete witnesses: a muxed video format (itag 18, one
audio channel), an elementary video format (itag 137, zero audio channels)
and an audio format (itag 140). -/
def fmtVideoMuxed : Format :=
  { itagNo := 18, mimeType := "video/mp4", qualityLabel := "360p",
    quality := "medium", audioChannels := 1, bitrate := 500000 }

/-- Elementary video-only sample format. -/
def fmtVideoHD : Format :=
  { itagNo := 137, mimeType := "video/mp4", qualityLabel := "1080p",
    quality := "hd1080", audioChannels := 0, bitrate := 4000000 }

/-- Audio sample format. -/
def fmtAudio : Format :=
  { itagNo := 140, mimeType := "audio/mp4", qualityLabel := "",
    quality := "tiny", audioChannels := 2, bitrate := 128000 }

/-- Sample video with the three sample formats. -/
def sampleVideo : Video :=
  { id := "vid1", title := "Test Video",
    formats := [fmtVideoMuxed, fmtVideoHD, fmtAudio] }

/-- C1: for every catalog containing, after the optional mimeType narrowing
and quality filter, at least one video-class format with audio-channel count
0 and at least one audio-class format, `getVideoAudioFormats` returns a pair
(videoFormat, audioFormat) with no error, where videoFormat is a video-class
format with audio-channel count 0, audioFormat is an audio-class format, and
both are elements of the supplied catalog `v.Formats`. -/
theorem getVideoAudioFormats_selects_from_catalog (v : Video)
    (quality mimetype : String)
    (hv : videoCandidates v quality mimetype ≠ [])
    (ha : audioCandidates v mimetype ≠ []) :
    ∃ vf af, getVideoAudioFormats v quality mimetype = Except.ok (vf, af) ∧
      vf ∈ v.formats ∧ strStartsWith "video" vf.mimeType = true ∧
      vf.audioChannels = 0 ∧
      af ∈ v.formats ∧ strStartsWith "audio" af.mimeType = true := by
  cases hsv : sortFormats (videoCandidates v quality mimetype) with
  | nil => exact absurd ((sortFormats_eq_nil_iff _).1 hsv) hv
  | cons vf restv =>
    cases hsa : sortFormats (audioCandidates v mimetype) with
    | nil => exact absurd ((sortFormats_eq_nil_iff _).1 hsa) ha
    | cons af resta =>
      have hvf : vf ∈ videoCandidates v quality mimetype := by
        have : vf ∈ sortFormats (videoCandidates v quality mimetype) := by
          rw [hsv]; exact List.mem_cons_self _ _
        exact (mem_sortFormats _ _).1 this
      have haf : af ∈ audioCandidates v mimetype := by
        have : af ∈ sortFormats (audioCandidates v mimetype) := by
          rw [hsa]; exact List.mem_cons_self _ _
        exact (mem_sortFormats _ _).1 this
      obtain ⟨hvm, hvcl, hvch⟩ := mem_videoCandidates hvf
      obtain ⟨ham, hacl⟩ := mem_audioCandidates haf
      refine ⟨vf, af, ?_, hvm, hvcl, hvch, ham, hacl⟩
      unfold getVideoAudioFormats
      rw [hsv, hsa]

/-- Closed witness for C1 on the sample catalog. -/
theorem getVideoAudioFormats_selects_from_catalog_witness :
    videoCandidates sampleVideo "" "" ≠ [] ∧
    audioCandidates sampleVideo "" ≠ [] ∧
    (∃ vf af, getVideoAudioFormats sampleVideo "" "" = Except.ok (vf, af) ∧
      vf ∈ sampleVideo.formats ∧ strStartsWith "video" vf.mimeType = true ∧
      vf.audioChannels = 0 ∧
      af ∈ sampleVideo.formats ∧ strStartsWith "audio" af.mimeType = true) :=
  ⟨by decide, by decide,
   getVideoAudioFormats_selects_from_catalog sampleVideo "" ""
     (by decide) (by decide)⟩

/-- C2: whenever the filtered video candidate set is empty,
`getVideoAudioFormats` fails with the video-not-found error — also when the
audio candidate set is non-empty, and when both sets are empty only the video
error surfaces, because the video emptiness check precedes the audio one. -/
theorem getVideoAudioFormats_video_error_precedes_audio (v : Video)
    (quality mimetype : String)
    (hv : videoCandidates v quality mimetype = []) :
    getVideoAudioFormats v quality mimetype =
      Except.error "no video format found after filtering" := by
  unfold getVideoAudioFormats
  rw [hv]
  rfl

/-- Closed witness for C2: on the sample catalog a 720p quality filter leaves
no video candidate while an audio candidate exists, and the video error
surfaces. -/
theorem getVideoAudioFormats_video_error_precedes_audio_witness :
    videoCandidates sampleVideo "720p" "" = [] ∧
    audioCandidates sampleVideo "" ≠ [] ∧
    getVideoAudioFormats sampleVideo "720p" "" =
      Except.error "no video format found after filtering" :=
  ⟨by decide, by decide,
   getVideoAudioFormats_video_error_precedes_audio sampleVideo "720p" ""
     (by decide)⟩

/-- Sample format with itag 22 for the itag-lookup witnesses. -/
def fmt22 : Format :=
  { itagNo := 22, mimeType := "video/mp4", qualityLabel := "720p",
    quality := "hd720", audioChannels := 2, bitrate := 1000000 }

/-- Sample catalog with itags 18, 22 and 140. -/
def itagSampleVideo : Video :=
  { id := "vid2", title := "Itag Sample",
    formats := [fmtVideoMuxed, fmt22, fmtAudio] }

/-- C7 counterexample: the claim says a failed lookup yields a
`NotFound(itag=id)` error identifying the missing itag, but the code's error
is the fixed string `"no audio format found"` — identical for the missing
itags 99 and 100 on the {18, 22, 140} catalog, so it identifies nothing. -/
theorem getFormatByItag_error_ignores_itag :
    getFormatByItag itagSampleVideo 99 = Except.error "no audio format found" ∧
    getFormatByItag itagSampleVideo 100 = Except.error "no audio format found" :=
  ⟨rfl, rfl⟩

/-- C7 (amended): `getFormatByItag` returns the format whose itag equals the
requested id when one is present (exact match), and fails when no format has
that id — but with the fixed error message `"no audio format found"`, which
does not identify the missing itag. -/
theorem getFormatByItag_exact_match_fixed_error (v : Video) (itag : Nat) :
    (∀ f, findByItag v.formats itag = some f →
       getFormatByItag v itag = Except.ok f ∧ f.itagNo = itag ∧ f ∈ v.formats) ∧
    (findByItag v.formats itag = none →
       getFormatByItag v itag = Except.error "no audio format found") := by
  constructor
  · intro f hf
    refine ⟨by simp [getFormatByItag, hf], ?_, ?_⟩
    · have := List.find?_some (p := fun g : Format => g.itagNo == itag)
        (by simpa [findByItag] using hf)
      simpa using this
    · exact List.mem_of_find?_eq_some (by simpa [findByItag] using hf)
  · intro hn
    simp [getFormatByItag, hn]

/-- Closed witness for the amended C7 on the {18, 22, 140} catalog: lookup of
22 returns the itag-22 format, lookup of 99 fails with the fixed message. -/
theorem getFormatByItag_exact_match_fixed_error_witness :
    (getFormatByItag itagSampleVideo 22 = Except.ok fmt22 ∧
     fmt22.itagNo = 22 ∧ fmt22 ∈ itagSampleVideo.formats) ∧
    getFormatByItag itagSampleVideo 99 = Except.error "no audio format found" :=
  ⟨(getFormatByItag_exact_match_fixed_error itagSampleVideo 22).1 fmt22 (by decide),
   (getFormatByItag_exact_match_fixed_error itagSampleVideo 99).2 (by decide)⟩

/-- Copying through the multi-writer appends exactly the concatenation of the
chunks and advances the counter by its length. -/
theorem ioCopy_spec (chunks : List (List Nat)) (s : CopyState) :
    ioCopy chunks s =
      { written := s.written ++ chunks.flatten, counter := s.counter + chunks.flatten.length } := by
  induction chunks generalizing s with
  | nil => simp [ioCopy]
  | cons c cs ih =>
    simp only [ioCopy, List.foldl_cons] at *
    rw [ih]
    simp [writeChunk, Nat.add_assoc]

/-- C4: for every source stream consumed by the copy loop of `videoDLWorker`
that ends cleanly, the bytes written to the destination are exactly the bytes
read from the source — same content, same order, same length — and the final
progress counter equals the number of bytes delivered. -/
theorem videoDLWorker_copies_exactly (s : Stream) (h : s.tailErr = none) :
    (videoDLWorker (Except.ok s)).result = Except.ok () ∧
    (videoDLWorker (Except.ok s)).written = s.chunks.flatten ∧
    (videoDLWorker (Except.ok s)).counter = s.chunks.flatten.length := by
  simp [videoDLWorker, h, ioCopy_spec]

/-- Sample source stream for the C4 witness. -/
def sampleStream : Stream :=
  { chunks := [[1, 2], [3], [4, 5, 6]], tailErr := none, size := 6 }

/-- Closed witness for C4 on a concrete three-chunk stream. -/
theorem videoDLWorker_copies_exactly_witness :
    sampleStream.tailErr = none ∧
    ((videoDLWorker (Except.ok sampleStream)).result = Except.ok () ∧
     (videoDLWorker (Except.ok sampleStream)).written = sampleStream.chunks.flatten ∧
     (videoDLWorker (Except.ok sampleStream)).counter = sampleStream.chunks.flatten.length) :=
  ⟨rfl, videoDLWorker_copies_exactly sampleStream rfl⟩

/-- Stream whose declared length is 0 for the C9 counterexample. -/
def zeroLenStream : Stream :=
  { chunks := [[5]], tailErr := none, size := 0 }

/-- C9 counterexample: the claim says that with declared length 0 the display
suppresses the percentage figure, but `videoDLWorker` attaches the percentage
decorator unconditionally — for a stream with declared length 0 the built bar
still carries it. -/
theorem videoDLWorker_percentage_not_suppressed :
    (videoDLWorker (Except.ok zeroLenStream)).bar =
      some { total := 0,
             prepended := [Decor.countersKibiByte, Decor.percentage],
             appended := [Decor.ewmaETA, Decor.nameDecor, Decor.ewmaSpeed] } :=
  rfl

/-- C9 (amended): for every opened stream, whatever the declared length — 0
included — `videoDLWorker` builds the bar with the same decorators: the
absolute byte counters are always shown and the percentage decorator is
always attached (never suppressed), with the bar total set to the declared
length. -/
theorem videoDLWorker_decorators_unconditional (s : Stream) :
    (videoDLWorker (Except.ok s)).bar = some (videoDLWorkerBar s.size) ∧
    (videoDLWorkerBar s.size).total = s.size ∧
    (videoDLWorkerBar s.size).prepended = [Decor.countersKibiByte, Decor.percentage] := by
  refine ⟨?_, rfl, rfl⟩
  unfold videoDLWorker
  cases h : s.tailErr <;> simp [h]

/-- C8: for every video, format and sanitizer, when the explicit name is
empty `getOutputFile` derives the destination name as the sanitized title
plus the extension inferred from the chosen format's MIME type (an unknown
subtype falling back to the documented default extension); when the output
directory is set it is created recursively with permission bits 0o755 and the
name is joined under it, and when it is unset the bare derived name is
returned with no directory creation. -/
theorem getOutputFile_derives_name_and_creates_dir (dl : Downloader)
    (sanitize : String → String) (v : Video) (format : Format)
    (hdir : dl.outputDir ≠ "") :
    getOutputFile dl sanitize (Except.ok ()) v format "" =
      (Except.ok (dl.outputDir ++ "/" ++
         (sanitize v.title ++ pickIdealFileExtension format.mimeType)),
       [Eff.mkdirAll dl.outputDir 0o755]) ∧
    (∀ mt, extensionTable.find? (fun p => strStartsWith p.1 mt) = none →
       pickIdealFileExtension mt = defaultExtension) ∧
    (∀ dl' : Downloader, dl'.outputDir = "" →
       getOutputFile dl' sanitize (Except.ok ()) v format "" =
         (Except.ok (sanitize v.title ++ pickIdealFileExtension format.mimeType), [])) := by
  refine ⟨?_, ?_, ?_⟩
  · simp [getOutputFile, hdir]
  · intro mt hmt
    simp [pickIdealFileExtension, hmt]
  · intro dl' hdl'
    simp [getOutputFile, hdl']

/-- Sample downloader with an output directory set. -/
def sampleDl : Downloader := { outputDir := "out" }

/-- Closed witness for C8 with the identity sanitizer on the sample video. -/
theorem getOutputFile_derives_name_and_creates_dir_witness :
    sampleDl.outputDir ≠ "" ∧
    (getOutputFile sampleDl id (Except.ok ()) sampleVideo fmtVideoHD "" =
       (Except.ok (sampleDl.outputDir ++ "/" ++
          (id sampleVideo.title ++ pickIdealFileExtension fmtVideoHD.mimeType)),
        [Eff.mkdirAll sampleDl.outputDir 0o755]) ∧
     (∀ mt, extensionTable.find? (fun p => strStartsWith p.1 mt) = none →
        pickIdealFileExtension mt = defaultExtension) ∧
     (∀ dl' : Downloader, dl'.outputDir = "" →
        getOutputFile dl' id (Except.ok ()) sampleVideo fmtVideoHD "" =
          (Except.ok (id sampleVideo.title ++ pickIdealFileExtension fmtVideoHD.mimeType),
           []))) :=
  ⟨by decide,
   getOutputFile_derives_name_and_creates_dir sampleDl id sampleVideo fmtVideoHD
     (by decide)⟩

/-- Effects of `getOutputFile` are at most the single directory creation with
permission bits 0o755. -/
theorem getOutputFile_effects (dl : Downloader) (sanitize : String → String)
    (mkdirAllRes : Except String Unit) (v : Video) (format : Format)
    (outputFile : String) :
    (getOutputFile dl sanitize mkdirAllRes v format outputFile).2 = [] ∨
    (getOutputFile dl sanitize mkdirAllRes v format outputFile).2 =
      [Eff.mkdirAll dl.outputDir 0o755] := by
  unfold getOutputFile
  by_cases hd : dl.outputDir = ""
  · left; simp [hd]
  · cases mkdirAllRes <;> simp [hd]

/-- Looking a path up right after its creating entry was put in front yields
the empty content. -/
theorem lookup_create (fs : List (String × List Nat)) (p : String) :
    ((p, ([] : List Nat)) :: fs).lookup p = some [] := by
  simp [List.lookup]

/-- C10: in `Download` and `DownloadByItag` the destination file is created
(truncating) before the stream is opened, so when path resolution and file
creation succeed but opening the stream fails, the call returns the
stream-open error while an empty destination file remains on disk — the
destination is never removed on error. -/
theorem download_error_leaves_empty_destination (dl : Downloader) (env : DLEnv)
    (v : Video) (format : Format) (outputFile destFile : String)
    (effs : List Eff) (itag : Nat) (e : String)
    (hres : getOutputFile dl env.sanitize env.mkdirAllRes v format outputFile =
      (Except.ok destFile, effs))
    (hitag : getFormatByItag v itag = Except.ok format)
    (hcreate : env.createRes = Except.ok ())
    (hstream : env.streamRes = Except.error e) :
    (dl.download env v format outputFile =
       (Except.error e, effs ++ [Eff.create destFile, Eff.streamOpen])) ∧
    (dl.downloadByItag env v itag outputFile =
       (Except.error e, effs ++ [Eff.create destFile, Eff.streamOpen])) ∧
    (∀ p, Eff.remove p ∉ effs ++ [Eff.create destFile, Eff.streamOpen]) ∧
    (∀ fs0, (runFs fs0 (effs ++ [Eff.create destFile, Eff.streamOpen])).lookup destFile =
       some []) := by
  have heffs : effs = [] ∨ effs = [Eff.mkdirAll dl.outputDir 0o755] := by
    have := getOutputFile_effects dl env.sanitize env.mkdirAllRes v format outputFile
    rwa [hres] at this
  refine ⟨?_, ?_, ?_, ?_⟩
  · simp [Downloader.download, hres, hcreate, hstream]
  · simp [Downloader.downloadByItag, hitag, hres, hcreate, hstream]
  · intro p
    rcases heffs with h | h <;> simp [h]
  · intro fs0
    rcases heffs with h | h <;>
      simp [h, runFs, applyEff, lookup_create]

/-- Environment for the C10 witness: resolution and file creation succeed,
the stream fails to open. -/
def c10Env : DLEnv :=
  { sanitize := id, mkdirAllRes := Except.ok (), createRes := Except.ok (),
    streamRes := Except.error "stream open failed" }

/-- Closed witness for C10 on the sample video with the output directory
`out`. -/
theorem download_error_leaves_empty_destination_witness :
    (getOutputFile sampleDl c10Env.sanitize c10Env.mkdirAllRes sampleVideo fmtVideoHD "" =
       (Except.ok "out/Test Video.mp4", [Eff.mkdirAll "out" 0o755])) ∧
    getFormatByItag sampleVideo 137 = Except.ok fmtVideoHD ∧
    c10Env.createRes = Except.ok () ∧
    c10Env.streamRes = Except.error "stream open failed" ∧
    ((sampleDl.download c10Env sampleVideo fmtVideoHD "" =
        (Except.error "stream open failed",
         [Eff.mkdirAll "out" 0o755] ++
           [Eff.create "out/Test Video.mp4", Eff.streamOpen])) ∧
     (sampleDl.downloadByItag c10Env sampleVideo 137 "" =
        (Except.error "stream open failed",
         [Eff.mkdirAll "out" 0o755] ++
           [Eff.create "out/Test Video.mp4", Eff.streamOpen])) ∧
     (∀ p, Eff.remove p ∉
        [Eff.mkdirAll "out" 0o755] ++
          [Eff.create "out/Test Video.mp4", Eff.streamOpen]) ∧
     (∀ fs0, (runFs fs0
         ([Eff.mkdirAll "out" 0o755] ++
           [Eff.create "out/Test Video.mp4", Eff.streamOpen])).lookup
         "out/Test Video.mp4" = some [])) :=
  ⟨by decide, by decide, rfl, rfl,
   download_error_leaves_empty_destination sampleDl c10Env sampleVideo fmtVideoHD ""
     "out/Test Video.mp4" [Eff.mkdirAll "out" 0o755] 137 "stream open failed"
     (by decide) (by decide) rfl rfl⟩

/-- C3: for every composite run in which both temporary files were created,
both temp paths are registered for removal and removed on every exit path —
success, video-download failure, audio-download failure and merge failure
alike, whatever the muxer's exit code — so no dangling temp files remain. -/
theorem downloadComposite_removes_created_temps (dl : Downloader)
    (env : CompositeEnv) (outputFile : String) (v : Video)
    (quality mimetype : String) (vf af : Format) (destFile vt at2 : String)
    (hsel : getVideoAudioFormats v quality mimetype = Except.ok (vf, af))
    (hout : (getOutputFile dl env.sanitize env.mkdirAllRes v vf outputFile).1 =
      Except.ok destFile)
    (hvt : env.createVideoTemp = Except.ok vt)
    (hat : env.createAudioTemp = Except.ok at2) :
    (dl.downloadComposite env outputFile v quality mimetype).created = [vt, at2] ∧
    (dl.downloadComposite env outputFile v quality mimetype).removed = [at2, vt] := by
  simp only [Downloader.downloadComposite, hsel, hout, hvt, hat]
  cases hwv : (videoDLWorker env.streamVideo).result with
  | error e => simp
  | ok u =>
    cases hwa : (videoDLWorker env.streamAudio).result with
    | error e2 => simp
    | ok u2 => simp

/-- Environment for composite witnesses in which every stage succeeds except
the merge, whose subprocess exits with code 1. -/
def compEnvMergeFail : CompositeEnv :=
  { sanitize := id, mkdirAllRes := Except.ok (),
    createVideoTemp := Except.ok "out/youtube_1.m4v",
    createAudioTemp := Except.ok "out/youtube_2.m4a",
    streamVideo := Except.ok { chunks := [[1]], tailErr := none, size := 1 },
    streamAudio := Except.ok { chunks := [[2]], tailErr := none, size := 1 },
    muxerRun := RunResult.exitErr 1,
    ffmpegProbe := RunResult.ok }

/-- Closed witness for C3: both temps are created and both are removed even
though the merge fails. -/
theorem downloadComposite_removes_created_temps_witness :
    getVideoAudioFormats sampleVideo "" "" = Except.ok (fmtVideoHD, fmtAudio) ∧
    (getOutputFile sampleDl compEnvMergeFail.sanitize compEnvMergeFail.mkdirAllRes
        sampleVideo fmtVideoHD "").1 = Except.ok "out/Test Video.mp4" ∧
    compEnvMergeFail.createVideoTemp = Except.ok "out/youtube_1.m4v" ∧
    compEnvMergeFail.createAudioTemp = Except.ok "out/youtube_2.m4a" ∧
    ((sampleDl.downloadComposite compEnvMergeFail "" sampleVideo "" "").created =
       ["out/youtube_1.m4v", "out/youtube_2.m4a"] ∧
     (sampleDl.downloadComposite compEnvMergeFail "" sampleVideo "" "").removed =
       ["out/youtube_2.m4a", "out/youtube_1.m4v"]) :=
  ⟨by decide, by decide, rfl, rfl,
   downloadComposite_removes_created_temps sampleDl compEnvMergeFail ""
     sampleVideo "" "" fmtVideoHD fmtAudio "out/Test Video.mp4"
     "out/youtube_1.m4v" "out/youtube_2.m4a" (by decide) (by decide) rfl rfl⟩

/-- C5: when the muxer subprocess exits nonzero, `DownloadComposite` returns
the distinct nonzero-exit (merge) error; when the subprocess cannot launch
because the tool is absent from the search path, it returns the distinct
tool-missing error; and in the composite command path the `ffmpeg -version`
availability probe is the first event, before any stream download. -/
theorem downloadComposite_merge_error_classification (dl : Downloader)
    (env : CompositeEnv) (outputFile : String) (v : Video)
    (quality mimetype : String) (vf af : Format) (destFile vt at2 : String)
    (hsel : getVideoAudioFormats v quality mimetype = Except.ok (vf, af))
    (hout : (getOutputFile dl env.sanitize env.mkdirAllRes v vf outputFile).1 =
      Except.ok destFile)
    (hvt : env.createVideoTemp = Except.ok vt)
    (hat : env.createAudioTemp = Except.ok at2)
    (hwv : (videoDLWorker env.streamVideo).result = Except.ok ())
    (hwa : (videoDLWorker env.streamAudio).result = Except.ok ()) :
    ((∀ c, env.muxerRun = RunResult.exitErr c →
        (dl.downloadComposite env outputFile v quality mimetype).result =
          Except.error (DLErr.exitError c)) ∧
     (env.muxerRun = RunResult.notFound →
        (dl.downloadComposite env outputFile v quality mimetype).result =
          Except.error DLErr.execNotFound)) ∧
    (downloadHD dl env outputFile v quality mimetype).2.head? =
      some Ev.probeFFmpeg := by
  refine ⟨⟨?_, ?_⟩, ?_⟩
  · intro c hc
    simp [Downloader.downloadComposite, hsel, hout, hvt, hat, hwv, hwa, hc]
  · intro hc
    simp [Downloader.downloadComposite, hsel, hout, hvt, hat, hwv, hwa, hc]
  · unfold downloadHD
    cases env.ffmpegProbe <;> simp [checkFFMPEG]

/-- Closed witness for C5: with the merge subprocess exiting 1 the composite
run reports the nonzero-exit error, and the probe heads the event list. -/
theorem downloadComposite_merge_error_classification_witness :
    (videoDLWorker compEnvMergeFail.streamVideo).result = Except.ok () ∧
    (videoDLWorker compEnvMergeFail.streamAudio).result = Except.ok () ∧
    (sampleDl.downloadComposite compEnvMergeFail "" sampleVideo "" "").result =
      Except.error (DLErr.exitError 1) ∧
    (downloadHD sampleDl compEnvMergeFail "" sampleVideo "" "").2.head? =
      some Ev.probeFFmpeg := by
  have h := downloadComposite_merge_error_classification sampleDl compEnvMergeFail
    "" sampleVideo "" "" fmtVideoHD fmtAudio "out/Test Video.mp4"
    "out/youtube_1.m4v" "out/youtube_2.m4a" (by decide) (by decide) rfl rfl rfl rfl
  exact ⟨rfl, rfl, h.1.1 1 rfl, h.2⟩

/-- C6: on every successful composite run the muxer is invoked exactly once,
with the arguments in this fixed order: force overwrite, the input temp video
path, the input temp audio path, stream copy, shortest-stream truncation, the
destination output path, reduced verbosity. -/
theorem downloadComposite_single_muxer_invocation (dl : Downloader)
    (env : CompositeEnv) (outputFile : String) (v : Video)
    (quality mimetype : String) (vf af : Format) (destFile vt at2 : String)
    (hsel : getVideoAudioFormats v quality mimetype = Except.ok (vf, af))
    (hout : (getOutputFile dl env.sanitize env.mkdirAllRes v vf outputFile).1 =
      Except.ok destFile)
    (hvt : env.createVideoTemp = Except.ok vt)
    (hat : env.createAudioTemp = Except.ok at2)
    (hwv : (videoDLWorker env.streamVideo).result = Except.ok ())
    (hwa : (videoDLWorker env.streamAudio).result = Except.ok ())
    (hrun : env.muxerRun = RunResult.ok) :
    (dl.downloadComposite env outputFile v quality mimetype).result =
      Except.ok () ∧
    (dl.downloadComposite env outputFile v quality mimetype).muxerCalls =
      [["-y", "-i", vt, "-i", at2, "-c", "copy", "-shortest", destFile,
        "-loglevel", "warning"]] := by
  constructor <;>
    simp [Downloader.downloadComposite, hsel, hout, hvt, hat, hwv, hwa, hrun,
      ffmpegArgs]

/-- Environment for the C6 witness in which every stage succeeds, the merge
included. -/
def compEnvAllOk : CompositeEnv :=
  { sanitize := id, mkdirAllRes := Except.ok (),
    createVideoTemp := Except.ok "out/youtube_1.m4v",
    createAudioTemp := Except.ok "out/youtube_2.m4a",
    streamVideo := Except.ok { chunks := [[1]], tailErr := none, size := 1 },
    streamAudio := Except.ok { chunks := [[2]], tailErr := none, size := 1 },
    muxerRun := RunResult.ok,
    ffmpegProbe := RunResult.ok }

/-- Closed witness for C6 on a fully successful composite run. -/
theorem downloadComposite_single_muxer_invocation_witness :
    compEnvAllOk.muxerRun = RunResult.ok ∧
    ((sampleDl.downloadComposite compEnvAllOk "" sampleVideo "" "").result =
       Except.ok () ∧
     (sampleDl.downloadComposite compEnvAllOk "" sampleVideo "" "").muxerCalls =
       [["-y", "-i", "out/youtube_1.m4v", "-i", "out/youtube_2.m4a", "-c",
         "copy", "-shortest", "out/Test Video.mp4", "-loglevel", "warning"]]) :=
  ⟨rfl,
   downloadComposite_single_muxer_invocation sampleDl compEnvAllOk ""
     sampleVideo "" "" fmtVideoHD fmtAudio "out/Test Video.mp4"
     "out/youtube_1.m4v" "out/youtube_2.m4a" (by decide) (by decide) rfl rfl
     rfl rfl rfl⟩

end Downloading
